import Mathlib

/-
Verification of the Anjaylytics frontend dashboard (App.tsx, MVP v7 variant).

Shallow embedding conventions:
  * JavaScript 32-bit integer arithmetic is modelled on Nat with explicit
    `% 4294967296`; the unsigned reinterpretation `>>> 0` is the identity on
    that representation.
  * JavaScript numbers used for display values (prices, probabilities) are
    modelled as rationals.
  * React component state is modelled as explicit state records; each
    useEffect invocation is an event acting on the state.  The effect's
    `cancelled` flag is captured by a generation counter: an effect run is
    live exactly while its generation equals the current one, since React
    runs the previous effect's cleanup (which sets `cancelled = true`)
    before the next effect body.
  * DOM side effects (triggering a file download) are modelled as fields of
    the result record.
-/

namespace Anjaylytics

/-- A coaching tip, one entry of the COACH_TIPS configuration table. -/
structure Tip where
  category : String
  text : String
deriving DecidableEq

/-- The market preset union type from App.tsx. -/
inductive Preset where
  | Botswana : Preset
  | Global : Preset
deriving DecidableEq

/-- One idea of the plan response (type ApiPlanItem in App.tsx). -/
structure ApiPlanItem where
  symbol : String
  name : String
  market : String
  price : ℚ
  p : ℚ
  ev : ℚ
  entry : ℚ
  stop : ℚ
  take : ℚ
  size_bwp : ℚ
  rationale : String
  headlines : List String
deriving DecidableEq

/-- Cash advice of a plan response. -/
structure CashAdvice where
  suggested : Bool
  reason : Option String
deriving DecidableEq

/-- The plan response (type ApiPlan in App.tsx). -/
structure ApiPlan where
  asof : String
  preset : Preset
  ideas : List ApiPlanItem
  cash : CashAdvice
deriving DecidableEq

/-- The metrics response (type ApiMetrics in App.tsx). -/
structure ApiMetrics where
  brier : Option ℚ
deriving DecidableEq

/-- One reliability bin of the calibration array. -/
structure CalibrationBin where
  p_avg : ℚ
  y_rate : ℚ
  n : ℚ
deriving DecidableEq

/-- The reliability response (type ApiReliability in App.tsx). -/
structure ApiReliability where
  calibration : List CalibrationBin
deriving DecidableEq

/-- riskLabel from App.tsx line 218:
`riskSlider < 0.34 ? "conservative" : riskSlider < 0.67 ? "balanced" : "aggressive"`. -/
def riskLabel (r : ℚ) : String :=
  if r < 34/100 then "conservative" else if r < 67/100 then "balanced" else "aggressive"

/-- threshold from App.tsx line 219:
`riskSlider < 0.34 ? 0.60 : riskSlider < 0.67 ? 0.56 : 0.53`. -/
def threshold (r : ℚ) : ℚ :=
  if r < 34/100 then 60/100 else if r < 67/100 then 56/100 else 53/100

/-- C2: for every risk value r in [0,1] the derived (category, threshold)
pair is conservative/0.60 when r < 0.34, balanced/0.56 when
0.34 ≤ r < 0.67, and aggressive/0.53 when r ≥ 0.67.  `riskLabel` and
`threshold` are plain total functions on ℚ, so the derivation is pure and
total with no failure modes. -/
theorem risk_derivation_cases (r : ℚ) (h0 : 0 ≤ r) (h1 : r ≤ 1) :
    (r < 34/100 → riskLabel r = "conservative" ∧ threshold r = 60/100) ∧
    (34/100 ≤ r ∧ r < 67/100 → riskLabel r = "balanced" ∧ threshold r = 56/100) ∧
    (67/100 ≤ r → riskLabel r = "aggressive" ∧ threshold r = 53/100) := by
  refine ⟨fun h => ?_, fun h => ?_, fun h => ?_⟩
  · rw [riskLabel, threshold, if_pos h, if_pos h]
    exact ⟨rfl, rfl⟩
  · rw [riskLabel, threshold, if_neg (not_lt.2 h.1), if_pos h.2,
      if_neg (not_lt.2 h.1), if_pos h.2]
    exact ⟨rfl, rfl⟩
  · have h34 : ¬ r < 34/100 := not_lt.2 (le_trans (by norm_num) h)
    have h67 : ¬ r < 67/100 := not_lt.2 h
    rw [riskLabel, threshold, if_neg h34, if_neg h67, if_neg h34, if_neg h67]
    exact ⟨rfl, rfl⟩

/-- Witness for `risk_derivation_cases` at the concrete slider value 1/2. -/
theorem risk_derivation_cases_witness :
    riskLabel (1/2) = "balanced" ∧ threshold (1/2) = 56/100 :=
  (risk_derivation_cases (1/2) (by norm_num) (by norm_num)).2.1 ⟨by norm_num, by norm_num⟩

/-- COACH_TIPS from App.tsx lines 141-167: five groups of three tips each
(Basics, Risk, Mindset, Botswana, Quotes). -/
def COACH_TIPS : List (List Tip) :=
  [ [ { category := "Basics", text := "Position size first. A good idea with bad sizing can still lose money." },
      { category := "Basics", text := "Only trade when the edge passes both gates: probability ≥ threshold and EV > 0 after fees/FX." },
      { category := "Basics", text := "No-trade days are wins—avoiding bad bets protects capital." } ],
    [ { category := "Risk", text := "Cap loss per day to ~2% of bankroll. After a 4% drawdown, halve sizes tomorrow." },
      { category := "Risk", text := "Set stops when you enter. Move them only with a plan, not emotion." },
      { category := "Risk", text := "Avoid illiquid names. If ADV is low, slippage eats your edge." } ],
    [ { category := "Mindset", text := "Process over outcome: judge the decision by the plan, not a single result." },
      { category := "Mindset", text := "Keep a mistakes log: late entries, stop discipline, chasing." },
      { category := "Mindset", text := "Let data speak—don’t force a trade to ‘use the budget’." } ],
    [ { category := "Botswana", text := "Local hours: BSE 10:25–12:05 & 12:15–14:00 (Gaborone). Size conservatively due to liquidity." },
      { category := "Botswana", text := "US session: ~15:30–22:00 (Gaborone). Fractional shares help with P250–P500 tickets." },
      { category := "Botswana", text := "Keep FX in mind: BWP⇄USD costs (30–80 bps) reduce your EV on global trades." } ],
    [ { category := "Quotes", text := "\"The goal of a successful trader is to make the best trades. Money is secondary.\" — Alexander Elder" },
      { category := "Quotes", text := "\"Risk comes from not knowing what you’re doing.\" — Warren Buffett" },
      { category := "Quotes", text := "\"Amateurs think about how much they can make. Pros think about how much they could lose.\" — Jack Schwager" } ] ]

/-- Seed derivation from App.tsx line 172:
`for (let i = 0; i < today.length; i++) seed = (seed * 31 + today.charCodeAt(i)) >>> 0;`
`charCodeAt` returns UTF-16 code units; date strings are ASCII, so the
character's code point is the code unit.  `>>> 0` keeps the accumulator an
unsigned 32-bit value, modelled by `% 4294967296`. -/
def dailySeed (today : String) : Nat :=
  today.data.foldl (fun seed c => (seed * 31 + c.toNat) % 4294967296) 0

/-- One xorshift step from App.tsx line 173:
`seed ^= seed << 13; seed ^= seed >>> 17; seed ^= seed << 5`.
JavaScript performs these on 32-bit integer reinterpretations of the number;
XOR and the shifts act on the same bit patterns whether the value is read
signed or unsigned, so on the unsigned representation each step is XOR with
a shift, reduced mod 2^32.  (`x >>> 17` needs no reduction: it only removes
bits.) -/
def xorshift (s : Nat) : Nat :=
  let s1 := (s ^^^ (s <<< 13)) % 4294967296
  let s2 := s1 ^^^ (s1 >>> 17)
  (s2 ^^^ (s2 <<< 5)) % 4294967296

/-- Normalization from App.tsx line 173: `return (seed >>> 0) / 0xffffffff`.
Note the divisor is 2^32 - 1, not 2^32. -/
def randValue (s : Nat) : ℚ :=
  (s : ℚ) / 4294967295

/-- rand from App.tsx line 173 with the mutable `seed` made explicit: steps
the state and returns the new state with the normalized value. -/
def rand (seed : Nat) : Nat × ℚ :=
  let s := xorshift seed
  (s, randValue s)

/-- Index selection from App.tsx line 174: `Math.floor(rand() * group.length)`.
The value `randValue s * len` is the nonnegative rational s·len / 4294967295,
whose floor is the natural-number quotient; `tipIndex_eq_floor` below proves
this agreement with `Math.floor`, and the quotient form lets the kernel
evaluate concrete selections. -/
def tipIndex (s len : Nat) : Nat :=
  s * len / 4294967295

/-- tipIndex computes the floor of the normalized value scaled by the group
length, as the source's `Math.floor(rand() * group.length)` does. -/
theorem tipIndex_eq_floor (s len : Nat) : tipIndex s len = (⌊randValue s * (len : ℚ)⌋).toNat := by
  have h : randValue s * (len : ℚ) = ((s * len : ℕ) : ℚ) / ((4294967295 : ℕ) : ℚ) := by
    rw [randValue]
    push_cast
    ring
  rw [tipIndex, h, Int.floor_toNat, Nat.floor_div_eq_div]

/-- Selection loop of App.tsx line 174:
`COACH_TIPS.map(group => group[Math.floor(rand() * group.length)])`, with the
generator state threaded through the groups in order.  An index outside the
group (JavaScript `undefined`) is `none`. -/
def pickFrom (seed : Nat) : List (List Tip) → List (Option Tip)
  | [] => []
  | g :: gs =>
      let s := (rand seed).1
      g.get? (tipIndex s g.length) :: pickFrom s gs

/-- pickDailyTips from App.tsx lines 169-175, as a function of the date
string read from `new Date().toISOString().slice(0, 10)`. -/
def pickDailyTips (today : String) : List (Option Tip) :=
  pickFrom (dailySeed today) COACH_TIPS

/-- pickFrom yields exactly one entry per tip group, in group order. -/
theorem pickFrom_length (seed : Nat) (gs : List (List Tip)) :
    (pickFrom seed gs).length = gs.length := by
  induction gs generalizing seed with
  | nil => rfl
  | cons g gs ih => simp [pickFrom, ih]

/-- C5: the daily tip selection is a pure function of the date string — it
factors through the folded seed, so any two invocations on dates with the
same seed (in particular the same date) return the identical sequence of
selected tips, one entry per category group in group order. -/
theorem pickDailyTips_deterministic (d1 d2 : String) (h : dailySeed d1 = dailySeed d2) :
    pickDailyTips d1 = pickDailyTips d2 ∧
    (pickDailyTips d1).length = COACH_TIPS.length := by
  unfold pickDailyTips
  rw [h]
  exact ⟨rfl, pickFrom_length _ _⟩

/-- Witness for `pickDailyTips_deterministic`: two invocations on the fixed
date 2026-10-11 agree and select one tip slot per category group. -/
theorem pickDailyTips_deterministic_witness :
    dailySeed "2026-10-11" = dailySeed "2026-10-11" ∧
    (pickDailyTips "2026-10-11" = pickDailyTips "2026-10-11" ∧
      (pickDailyTips "2026-10-11").length = COACH_TIPS.length) :=
  ⟨rfl, pickDailyTips_deterministic "2026-10-11" "2026-10-11" rfl⟩

example : dailySeed "2026-10-11" = 1162559491 := by decide
example : xorshift 1162559491 = 2217599590 := by decide
example : (pickDailyTips "2026-10-11").length = 5 := by decide

/-! Development for C4.  A produced value equals 1 (the only way to leave
[0,1), since the divisor is 2^32 - 1) exactly when the xorshift state is
2^32 - 1.  The generator state is invertible, so the seeds whose first five
draws can reach that state are five concrete numbers; the date seed is a
polynomial hash whose year-digit part is confined to a narrow interval, and
a modular-inverse computation over all months and day digits (a 6500-case
kernel check) shows none of the five numbers is the hash of a calendar date
string.  Hence every value drawn for a calendar date lies in [0,1). -/

/-- Inverse of one xorshift step: undo `x ^= x << 5`, then `x ^= x >>> 17`,
then `x ^= x << 13`, on the unsigned 32-bit representation. -/
def invXorshift (y : Nat) : Nat :=
  let z3 := (y ^^^ (y <<< 5) ^^^ (y <<< 10) ^^^ (y <<< 15) ^^^ (y <<< 20) ^^^
    (y <<< 25) ^^^ (y <<< 30)) % 4294967296
  let z2 := z3 ^^^ (z3 >>> 17)
  (z2 ^^^ (z2 <<< 13) ^^^ (z2 <<< 26)) % 4294967296

theorem xor_left_comm (a b c : Nat) : a ^^^ (b ^^^ c) = b ^^^ (a ^^^ c) := by
  rw [← Nat.xor_assoc, Nat.xor_comm a b, Nat.xor_assoc]

theorem xor_cancel_left (a b : Nat) : a ^^^ (a ^^^ b) = b := by
  rw [← Nat.xor_assoc, Nat.xor_self, Nat.zero_xor]

theorem xor_mod_pow (a b n : Nat) : (a ^^^ b) % 2 ^ n = a % 2 ^ n ^^^ b % 2 ^ n := by
  apply Nat.eq_of_testBit_eq
  intro i
  simp [Nat.testBit_mod_two_pow, Nat.testBit_xor, Bool.and_xor_distrib_left]

theorem xor_shiftLeft_distrib (a b k : Nat) : (a ^^^ b) <<< k = a <<< k ^^^ b <<< k := by
  apply Nat.eq_of_testBit_eq
  intro i
  simp [Nat.testBit_shiftLeft, Nat.testBit_xor, Bool.and_xor_distrib_left]

theorem xor_shiftRight_distrib (a b k : Nat) : (a ^^^ b) >>> k = a >>> k ^^^ b >>> k := by
  apply Nat.eq_of_testBit_eq
  intro i
  simp [Nat.testBit_shiftRight, Nat.testBit_xor]

theorem shiftLeft_shiftLeft (a j k : Nat) : a <<< j <<< k = a <<< (j + k) := by
  simp [Nat.shiftLeft_eq, pow_add, Nat.mul_assoc]

theorem shiftRight_shiftRight (a j k : Nat) : a >>> j >>> k = a >>> (j + k) := by
  simp [Nat.shiftRight_eq_div_pow, pow_add, Nat.div_div_eq_div_mul]

theorem mod_shiftLeft_mod (a k n : Nat) : (a % 2 ^ n) <<< k % 2 ^ n = a <<< k % 2 ^ n := by
  rw [Nat.shiftLeft_eq, Nat.shiftLeft_eq, Nat.mod_mul_mod]

theorem shiftLeft_wide_mod (x j : Nat) : x <<< (32 + j) % 2 ^ 32 = 0 := by
  rw [Nat.shiftLeft_eq, pow_add]
  rw [show x * (2 ^ 32 * 2 ^ j) = x * 2 ^ j * 2 ^ 32 by ring]
  exact Nat.mul_mod_left _ _

theorem shiftRight_wide (x j : Nat) (hx : x < 2 ^ 32) : x >>> (32 + j) = 0 := by
  rw [Nat.shiftRight_eq_div_pow]
  exact Nat.div_eq_of_lt (lt_of_lt_of_le hx (Nat.pow_le_pow_right (by norm_num) (by omega)))

theorem un13_step (x : Nat) (hx : x < 2 ^ 32) :
    ((x ^^^ x <<< 13) % 2 ^ 32 ^^^ ((x ^^^ x <<< 13) % 2 ^ 32) <<< 13 ^^^
      ((x ^^^ x <<< 13) % 2 ^ 32) <<< 26) % 2 ^ 32 = x := by
  have e1 : (x ^^^ x <<< 13) <<< 13 = x <<< 13 ^^^ x <<< 26 := by
    rw [xor_shiftLeft_distrib, shiftLeft_shiftLeft]
  have e2 : (x ^^^ x <<< 13) <<< 26 = x <<< 26 ^^^ x <<< 39 := by
    rw [xor_shiftLeft_distrib, shiftLeft_shiftLeft]
  rw [xor_mod_pow, xor_mod_pow, mod_shiftLeft_mod, mod_shiftLeft_mod,
    Nat.mod_mod_of_dvd _ dvd_rfl, ← xor_mod_pow, ← xor_mod_pow, e1, e2]
  have cancel : x ^^^ x <<< 13 ^^^ (x <<< 13 ^^^ x <<< 26) ^^^ (x <<< 26 ^^^ x <<< 39) =
      x ^^^ x <<< 39 := by
    simp [Nat.xor_assoc, Nat.xor_comm, xor_left_comm, xor_cancel_left, Nat.xor_self,
      Nat.xor_zero]
  rw [cancel, xor_mod_pow, show (39 : Nat) = 32 + 7 by norm_num, shiftLeft_wide_mod,
    Nat.mod_eq_of_lt hx, Nat.xor_zero]

theorem un17_step (x : Nat) (hx : x < 2 ^ 32) :
    (x ^^^ x >>> 17) ^^^ (x ^^^ x >>> 17) >>> 17 = x := by
  rw [xor_shiftRight_distrib, shiftRight_shiftRight,
    show (17 + 17 : Nat) = 32 + 2 by norm_num, shiftRight_wide x 2 hx]
  simp [Nat.xor_assoc, Nat.xor_comm, xor_left_comm, xor_cancel_left, Nat.xor_self,
    Nat.xor_zero]

theorem un5_step (x : Nat) (hx : x < 2 ^ 32) :
    ((x ^^^ x <<< 5) % 2 ^ 32 ^^^ ((x ^^^ x <<< 5) % 2 ^ 32) <<< 5 ^^^
      ((x ^^^ x <<< 5) % 2 ^ 32) <<< 10 ^^^ ((x ^^^ x <<< 5) % 2 ^ 32) <<< 15 ^^^
      ((x ^^^ x <<< 5) % 2 ^ 32) <<< 20 ^^^ ((x ^^^ x <<< 5) % 2 ^ 32) <<< 25 ^^^
      ((x ^^^ x <<< 5) % 2 ^ 32) <<< 30) % 2 ^ 32 = x := by
  have e : ∀ k : Nat, (x ^^^ x <<< 5) <<< k = x <<< k ^^^ x <<< (5 + k) := by
    intro k
    rw [xor_shiftLeft_distrib, shiftLeft_shiftLeft]
  rw [xor_mod_pow, xor_mod_pow, xor_mod_pow, xor_mod_pow, xor_mod_pow, xor_mod_pow,
    mod_shiftLeft_mod, mod_shiftLeft_mod, mod_shiftLeft_mod, mod_shiftLeft_mod,
    mod_shiftLeft_mod, mod_shiftLeft_mod, Nat.mod_mod_of_dvd _ dvd_rfl,
    ← xor_mod_pow, ← xor_mod_pow, ← xor_mod_pow, ← xor_mod_pow, ← xor_mod_pow, ← xor_mod_pow,
    e 5, e 10, e 15, e 20, e 25, e 30]
  have cancel : x ^^^ x <<< 5 ^^^ (x <<< 5 ^^^ x <<< (5 + 5)) ^^^
      (x <<< 10 ^^^ x <<< (5 + 10)) ^^^ (x <<< 15 ^^^ x <<< (5 + 15)) ^^^
      (x <<< 20 ^^^ x <<< (5 + 20)) ^^^ (x <<< 25 ^^^ x <<< (5 + 25)) ^^^
      (x <<< 30 ^^^ x <<< (5 + 30)) = x ^^^ x <<< 35 := by
    norm_num
    simp [Nat.xor_assoc, Nat.xor_comm, xor_left_comm, xor_cancel_left, Nat.xor_self,
      Nat.xor_zero]
  rw [cancel, xor_mod_pow, show (35 : Nat) = 32 + 3 by norm_num, shiftLeft_wide_mod,
    Nat.mod_eq_of_lt hx, Nat.xor_zero]

/-- invXorshift is a left inverse of xorshift on 32-bit states, so a state
has exactly one xorshift preimage below 2^32. -/
theorem invXorshift_xorshift (x : Nat) (hx : x < 4294967296) :
    invXorshift (xorshift x) = x := by
  have h32 : (4294967296 : Nat) = 2 ^ 32 := by norm_num
  rw [h32] at hx
  have hs1 : (x ^^^ x <<< 13) % 2 ^ 32 < 2 ^ 32 := Nat.mod_lt _ (by norm_num)
  have hs2 : ((x ^^^ x <<< 13) % 2 ^ 32 ^^^ ((x ^^^ x <<< 13) % 2 ^ 32) >>> 17) < 2 ^ 32 := by
    refine Nat.xor_lt_two_pow hs1 (lt_of_le_of_lt ?_ hs1)
    rw [Nat.shiftRight_eq_div_pow]
    exact Nat.div_le_self _ _
  simp only [xorshift, invXorshift, h32]
  rw [un5_step _ hs2, un17_step _ hs1, un13_step _ hx]

theorem xorshift_lt (s : Nat) : xorshift s < 4294967296 := by
  simp only [xorshift]
  exact Nat.mod_lt _ (by norm_num)

/-- A seed below 2^32 whose j-th draw is a given state is the j-fold
invXorshift image of that state. -/
theorem iterate_preimage (j s : Nat) (hs : s < 4294967296)
    (h : xorshift^[j] s = 4294967295) : s = invXorshift^[j] 4294967295 := by
  induction j generalizing s with
  | zero => simpa using h
  | succ j ih =>
    rw [Function.iterate_succ_apply] at h
    have hstep := ih (xorshift s) (xorshift_lt s) h
    rw [Function.iterate_succ_apply', ← hstep, invXorshift_xorshift s hs]

/-- Horner accumulation of character codes without modular reduction. -/
def polyAux (a : Nat) : List Char → Nat
  | [] => a
  | c :: cs => polyAux (a * 31 + c.toNat) cs

/-- The seed fold absorbs its intermediate reductions: it equals the
unreduced Horner polynomial of the character codes, reduced once. -/
theorem foldSeed (cs : List Char) (a : Nat) :
    cs.foldl (fun seed c => (seed * 31 + c.toNat) % 4294967296) (a % 4294967296) =
      polyAux a cs % 4294967296 := by
  induction cs generalizing a with
  | nil => rfl
  | cons c cs ih =>
    show cs.foldl _ ((a % 4294967296 * 31 + c.toNat) % 4294967296) = _
    have habs : (a % 4294967296 * 31 + c.toNat) % 4294967296 =
        (a * 31 + c.toNat) % 4294967296 := by
      conv_lhs => rw [Nat.add_mod, Nat.mod_mul_mod, ← Nat.add_mod]
    rw [habs]
    exact ih (a * 31 + c.toNat)

theorem dailySeed_eq_poly (s : String) : dailySeed s = polyAux 0 s.data % 4294967296 := by
  have h := foldSeed s.data 0
  rwa [Nat.zero_mod] at h

theorem dailySeed_lt (s : String) : dailySeed s < 4294967296 := by
  rw [dailySeed_eq_poly]
  exact Nat.mod_lt _ (by norm_num)

/-- The ASCII character of a decimal digit. -/
def digitChar (n : Nat) : Char := Char.ofNat (48 + n)

/-- The ISO `YYYY-MM-DD` rendering of a calendar date, the string
`new Date().toISOString().slice(0, 10)` yields for year y, month m, day d:
zero-padded year, month and day digits separated by hyphens.  Every
calendar date string is of this form. -/
def dateString (y m d : Nat) : String :=
  String.mk [digitChar (y / 1000 % 10), digitChar (y / 100 % 10),
             digitChar (y / 10 % 10), digitChar (y % 10), '-',
             digitChar (m / 10 % 10), digitChar (m % 10), '-',
             digitChar (d / 10 % 10), digitChar (d % 10)]

theorem digitChar_toNat (n : Nat) (hn : n < 10) : (digitChar n).toNat = 48 + n := by
  interval_cases n <;> decide

/-- Hash contribution of the four year digits: the leading Horner prefix of
the date polynomial.  For digits 0..9 it lies in [1477632, 1754688]. -/
def yearHash (a b c d : Nat) : Nat :=
  (((48 + a) * 31 + (48 + b)) * 31 + (48 + c)) * 31 + (48 + d)

/-- Hash contribution of the hyphens, month digits and day digits:
45·31^5 + (48+m1)·31^4 + (48+m2)·31^3 + 45·31^2 + (48+e1)·31 + (48+e2). -/
def monthDayRest (m1 m2 e1 e2 : Nat) : Nat :=
  45 * 28629151 + (48 + m1) * 923521 + (48 + m2) * 29791 + 45 * 961 +
    (48 + e1) * 31 + (48 + e2)

theorem poly_decomp (a b c d m1 m2 e1 e2 : Nat)
    (ha : a < 10) (hb : b < 10) (hc : c < 10) (hd : d < 10)
    (hm1 : m1 < 10) (hm2 : m2 < 10) (he1 : e1 < 10) (he2 : e2 < 10) :
    polyAux 0 [digitChar a, digitChar b, digitChar c, digitChar d, '-',
               digitChar m1, digitChar m2, '-', digitChar e1, digitChar e2] =
      yearHash a b c d * 887503681 + monthDayRest m1 m2 e1 e2 := by
  have hdash : ('-' : Char).toNat = 45 := rfl
  simp only [polyAux, digitChar_toNat a ha, digitChar_toNat b hb, digitChar_toNat c hc,
    digitChar_toNat d hd, digitChar_toNat m1 hm1, digitChar_toNat m2 hm2,
    digitChar_toNat e1 he1, digitChar_toNat e2 he2, hdash, yearHash, monthDayRest]
  ring

theorem yearHash_bounds (a b c d : Nat)
    (ha : a < 10) (hb : b < 10) (hc : c < 10) (hd : d < 10) :
    1477632 ≤ yearHash a b c d ∧ yearHash a b c d ≤ 1754688 := by
  rw [yearHash]
  constructor <;> nlinarith

/-- The single residue the year part would have to take for the whole hash
to land on b, computed with 2147243201, the inverse of 31^6 modulo 2^32. -/
def s4Candidate (b R : Nat) : Nat :=
  (b * 2147243201 % 4294967296 + 4294967296 - R * 2147243201 % 4294967296) % 4294967296

/-- Because 31^6 · 2147243201 ≡ 1 (mod 2^32), a hash value b pins the year
part S modulo 2^32 to `s4Candidate b R`. -/
theorem s4_determined (S R b : Nat) (hb : b < 4294967296)
    (h : (S * 887503681 + R) % 4294967296 = b) :
    S % 4294967296 = s4Candidate b R := by
  have hau : (887503681 * 2147243201) % 4294967296 = 1 % 4294967296 := by decide
  have h1 : Nat.ModEq 4294967296 (S * 887503681 + R) b := by
    unfold Nat.ModEq
    rw [h, Nat.mod_eq_of_lt hb]
  have h2 : Nat.ModEq 4294967296 ((S * 887503681 + R) * 2147243201) (b * 2147243201) :=
    Nat.ModEq.mul_right _ h1
  have h3 : Nat.ModEq 4294967296 (S * (887503681 * 2147243201)) S := by
    calc S * (887503681 * 2147243201) ≡ S * 1 [MOD 4294967296] :=
          Nat.ModEq.mul_left S hau
    _ = S := Nat.mul_one S
  have h4 : Nat.ModEq 4294967296 (S + R * 2147243201) (b * 2147243201) := by
    have e : (S * 887503681 + R) * 2147243201 =
        S * (887503681 * 2147243201) + R * 2147243201 := by ring
    rw [e] at h2
    exact (Nat.ModEq.add_right _ h3).symm.trans h2
  have h5 : Nat.ModEq 4294967296 (S + R * 2147243201 % 4294967296) (b * 2147243201) :=
    (Nat.ModEq.add_left S (Nat.mod_modEq _ _)).trans h4
  have h5e : (S + R * 2147243201 % 4294967296) % 4294967296 =
      b * 2147243201 % 4294967296 := h5
  rw [s4Candidate]
  omega

/-- The five seeds whose first five draws can produce the state 2^32 - 1:
the one- to five-fold invXorshift images of that state. -/
def badSeeds : List Nat := [1584200935, 3764646662, 153712863, 2449128450, 756259708]

example : ∀ b ∈ badSeeds, ∃ j < 5, xorshift^[j + 1] b = 4294967295 := by decide

/-- Kernel check over every bad seed, month 0..12 and day digit pair: the
year residue forced by `s4_determined` never falls in the interval
[1477632, 1754688] that contains every year hash. -/
def dateSeedCheck : Bool :=
  badSeeds.all fun b =>
    (List.range 13).all fun m =>
      (List.range 10).all fun e1 =>
        (List.range 10).all fun e2 =>
          decide (s4Candidate b (monthDayRest (m / 10) (m % 10) e1 e2) < 1477632) ||
            decide (1754688 < s4Candidate b (monthDayRest (m / 10) (m % 10) e1 e2))

theorem dateSeedCheck_true : dateSeedCheck = true := by decide

theorem dateSeedCheck_spec (b m e1 e2 : Nat) (hb : b ∈ badSeeds)
    (hm : m < 13) (he1 : e1 < 10) (he2 : e2 < 10) :
    s4Candidate b (monthDayRest (m / 10) (m % 10) e1 e2) < 1477632 ∨
      1754688 < s4Candidate b (monthDayRest (m / 10) (m % 10) e1 e2) := by
  have h := dateSeedCheck_true
  rw [dateSeedCheck, List.all_eq_true] at h
  have h1 := h b hb
  rw [List.all_eq_true] at h1
  have h2 := h1 m (List.mem_range.mpr hm)
  rw [List.all_eq_true] at h2
  have h3 := h2 e1 (List.mem_range.mpr he1)
  rw [List.all_eq_true] at h3
  have h4 := h3 e2 (List.mem_range.mpr he2)
  simp only [Bool.or_eq_true, decide_eq_true_eq] at h4
  exact h4

/-- The date seed in decomposed form: year part times 31^6 plus the
month/day remainder, reduced mod 2^32. -/
theorem dateSeed_decomp (y m d : Nat) :
    dailySeed (dateString y m d) =
      (yearHash (y / 1000 % 10) (y / 100 % 10) (y / 10 % 10) (y % 10) * 887503681 +
        monthDayRest (m / 10 % 10) (m % 10) (d / 10 % 10) (d % 10)) % 4294967296 := by
  rw [dailySeed_eq_poly]
  have hdata : (dateString y m d).data =
      [digitChar (y / 1000 % 10), digitChar (y / 100 % 10), digitChar (y / 10 % 10),
       digitChar (y % 10), '-', digitChar (m / 10 % 10), digitChar (m % 10), '-',
       digitChar (d / 10 % 10), digitChar (d % 10)] := rfl
  rw [hdata, poly_decomp _ _ _ _ _ _ _ _ (Nat.mod_lt _ (by norm_num))
    (Nat.mod_lt _ (by norm_num)) (Nat.mod_lt _ (by norm_num)) (Nat.mod_lt _ (by norm_num))
    (Nat.mod_lt _ (by norm_num)) (Nat.mod_lt _ (by norm_num)) (Nat.mod_lt _ (by norm_num))
    (Nat.mod_lt _ (by norm_num))]

/-- No calendar date string hashes to a bad seed. -/
theorem dateSeed_not_bad (y m d : Nat) (hm : m ≤ 12) :
    ∀ b ∈ badSeeds, dailySeed (dateString y m d) ≠ b := by
  intro b hb hcontra
  have hblt : b < 4294967296 := by fin_cases hb <;> norm_num
  rw [dateSeed_decomp] at hcontra
  have hs4 := s4_determined _ _ _ hblt hcontra
  have hyb := yearHash_bounds (y / 1000 % 10) (y / 100 % 10) (y / 10 % 10) (y % 10)
    (Nat.mod_lt _ (by norm_num)) (Nat.mod_lt _ (by norm_num))
    (Nat.mod_lt _ (by norm_num)) (Nat.mod_lt _ (by norm_num))
  rw [Nat.mod_eq_of_lt (by omega)] at hs4
  have hm10 : m / 10 % 10 = m / 10 := Nat.mod_eq_of_lt (by omega)
  rw [hm10] at hs4
  have hspec := dateSeedCheck_spec b m (d / 10 % 10) (d % 10) hb (by omega)
    (Nat.mod_lt _ (by norm_num)) (Nat.mod_lt _ (by norm_num))
  omega

/-- For a calendar date, none of the first five generator states is
2^32 - 1 (which is the only state normalizing to a value outside [0,1)). -/
theorem dateState_ne (y m d : Nat) (hm : m ≤ 12) (k : Nat) (hk : k < 5) :
    xorshift^[k + 1] (dailySeed (dateString y m d)) ≠ 4294967295 := by
  intro h
  have hseed := iterate_preimage (k + 1) _ (dailySeed_lt _) h
  have hmem : invXorshift^[k + 1] 4294967295 ∈ badSeeds := by
    interval_cases k <;> decide
  exact dateSeed_not_bad y m d hm _ hmem hseed

theorem get?_isSome_of_lt (l : List Tip) (i : Nat) (hi : i < l.length) :
    (l.get? i).isSome = true := by
  rw [List.get?_eq_get hi]
  rfl

/-- Entries of pickFrom are well-defined tips whenever every selected index
is below its group's length.  (The entry of group k uses the k+1-st
generator state; `pickFrom seed (g :: gs)` is definitionally the cons of
`g.get? (tipIndex (xorshift seed) g.length)` onto the tail selection.) -/
theorem pickFrom_isSome (gs : List (List Tip)) (seed : Nat)
    (h : ∀ k (hk : k < gs.length),
      tipIndex (xorshift^[k + 1] seed) (gs.get ⟨k, hk⟩).length < (gs.get ⟨k, hk⟩).length) :
    ∀ t ∈ pickFrom seed gs, t.isSome = true := by
  induction gs generalizing seed with
  | nil => intro t ht; cases ht
  | cons g gs ih =>
    intro t ht
    rcases List.mem_cons.mp ht with h0 | h0
    · rw [h0]
      exact get?_isSome_of_lt _ _ (h 0 (Nat.succ_pos _))
    · exact ih (xorshift seed) (fun k hk => h (k + 1) (Nat.succ_lt_succ hk)) t h0

example : dateString 2026 10 11 = "2026-10-11" := by decide

/-- C4: for every calendar date string — the ISO `YYYY-MM-DD` rendering
produced by `toISOString().slice(0, 10)`, with month 1..12 and day 1..31 —
every value produced by the tip selector's xorshift generator lies in
[0,1): none of the five states drawn for the five tip groups is 2^32 - 1,
the unique state normalizing to 1.  Consequently each selected index
`floor(value × group length)` is strictly below the group length, and
exactly one well-defined tip is selected per category group (every entry
of the selection is `some`, one per group). -/
theorem daily_tip_selection_wellformed (y m d : Nat)
    (hy : y ≤ 9999) (hm1 : 1 ≤ m) (hm2 : m ≤ 12) (hd1 : 1 ≤ d) (hd2 : d ≤ 31) :
    (∀ k, k < 5 →
      0 ≤ randValue (xorshift^[k + 1] (dailySeed (dateString y m d))) ∧
      randValue (xorshift^[k + 1] (dailySeed (dateString y m d))) < 1 ∧
      ∀ len : Nat, 0 < len →
        tipIndex (xorshift^[k + 1] (dailySeed (dateString y m d))) len < len) ∧
    (pickDailyTips (dateString y m d)).length = COACH_TIPS.length ∧
    (∀ t ∈ pickDailyTips (dateString y m d), t.isSome = true) := by
  have hlt : ∀ k : Nat, xorshift^[k + 1] (dailySeed (dateString y m d)) < 4294967296 := by
    intro k
    rw [Function.iterate_succ_apply']
    exact xorshift_lt _
  have hstate : ∀ k, k < 5 → xorshift^[k + 1] (dailySeed (dateString y m d)) < 4294967295 := by
    intro k hk
    have h1 := hlt k
    have h2 := dateState_ne y m d hm2 k hk
    omega
  have hD : (0 : ℚ) < 4294967295 := by norm_num
  have main : ∀ k, k < 5 →
      0 ≤ randValue (xorshift^[k + 1] (dailySeed (dateString y m d))) ∧
      randValue (xorshift^[k + 1] (dailySeed (dateString y m d))) < 1 ∧
      ∀ len : Nat, 0 < len →
        tipIndex (xorshift^[k + 1] (dailySeed (dateString y m d))) len < len := by
    intro k hk
    refine ⟨div_nonneg (Nat.cast_nonneg _) hD.le, ?_, ?_⟩
    · rw [randValue, div_lt_one hD]
      exact_mod_cast hstate k hk
    · intro len hlen
      rw [tipIndex, Nat.div_lt_iff_lt_mul (by norm_num : 0 < 4294967295)]
      calc xorshift^[k + 1] (dailySeed (dateString y m d)) * len
          < 4294967295 * len := (Nat.mul_lt_mul_right hlen).2 (hstate k hk)
      _ = len * 4294967295 := Nat.mul_comm _ _
  refine ⟨main, pickFrom_length _ _, ?_⟩
  refine pickFrom_isSome COACH_TIPS _ (fun k hk => ?_)
  have hk5 : k < 5 := hk
  have hg : (COACH_TIPS.get ⟨k, hk⟩).length = 3 := by
    interval_cases k <;> rfl
  rw [hg]
  exact (main k hk5).2.2 3 (by norm_num)

/-- Witness for `daily_tip_selection_wellformed` at the concrete calendar
date 2026-10-11. -/
theorem daily_tip_selection_wellformed_witness :
    (2026 : Nat) ≤ 9999 ∧ (1 : Nat) ≤ 10 ∧ (10 : Nat) ≤ 12 ∧ (1 : Nat) ≤ 11 ∧
    (11 : Nat) ≤ 31 ∧
    ((∀ k, k < 5 →
      0 ≤ randValue (xorshift^[k + 1] (dailySeed (dateString 2026 10 11))) ∧
      randValue (xorshift^[k + 1] (dailySeed (dateString 2026 10 11))) < 1 ∧
      ∀ len : Nat, 0 < len →
        tipIndex (xorshift^[k + 1] (dailySeed (dateString 2026 10 11))) len < len) ∧
    (pickDailyTips (dateString 2026 10 11)).length = COACH_TIPS.length ∧
    (∀ t ∈ pickDailyTips (dateString 2026 10 11), t.isSome = true)) :=
  ⟨by norm_num, by norm_num, by norm_num, by norm_num, by norm_num,
    daily_tip_selection_wellformed 2026 10 11 (by norm_num) (by norm_num) (by norm_num)
      (by norm_num) (by norm_num)⟩

/-- State touched by the plan-fetch effect of App.tsx lines 220-237: the
committed plan, the user-visible error, the loading flag, and the
generation of the live effect run.  Each effect run captures a `cancelled`
flag that its cleanup sets; React runs the cleanup before the next effect
body, so run g is uncancelled exactly while g is the newest generation. -/
structure PlanState where
  plan : Option ApiPlan
  error : Option String
  loading : Bool
  current : Nat
deriving DecidableEq

/-- A new plan request is issued (the effect re-runs because a dependency
of the parameter tuple changed): the previous run's cleanup marks it
cancelled — modelled by bumping `current` — and the new body runs
`setLoading(true); setError(null)` before awaiting the fetch.  The request
issued here carries generation `(issue s).current`. -/
def issue (s : PlanState) : PlanState :=
  { s with current := s.current + 1, loading := true, error := none }

/-- The fetch of the run with generation g resolves successfully with plan
d: `if (!cancelled) setPlan(data)` and `finally { if (!cancelled)
setLoading(false) }` — a no-op unless g is still the live generation. -/
def resolveOk (g : Nat) (d : ApiPlan) (s : PlanState) : PlanState :=
  if g = s.current then { s with plan := some d, loading := false } else s

/-- The fetch of the run with generation g fails (transport error,
non-success HTTP status via `throw new Error`, or a body `res.json()`
cannot parse — all reach the same catch): `if (!cancelled) setError(...)`
and the finally clause — a no-op unless g is still live.  The plan field is
never written on this path. -/
def resolveErr (g : Nat) (msg : String) (s : PlanState) : PlanState :=
  if g = s.current then { s with error := some msg, loading := false } else s

/-- C1: if request A is issued and then request B is issued before A
resolves, the committed plan equals B's response after both resolve,
whichever response arrives first; the superseded request A never
overwrites the plan.  (A carries generation (issue s).current, B the
strictly larger (issue (issue s)).current.) -/
theorem planFetch_last_request_wins (s : PlanState) (dA dB : ApiPlan) :
    (resolveOk (issue (issue s)).current dB
      (resolveOk (issue s).current dA (issue (issue s)))).plan = some dB ∧
    (resolveOk (issue s).current dA
      (resolveOk (issue (issue s)).current dB (issue (issue s)))).plan = some dB ∧
    (issue s).current ≠ (issue (issue s)).current := by
  refine ⟨?_, ?_, by simp [issue]⟩
  · simp [issue, resolveOk]
  · simp [issue, resolveOk]

/-- C6: a failed plan fetch never writes the plan field — the previously
committed plan (or its absence, when none was ever loaded) is preserved for
every generation, stale or live — and when the failing request is the live
one it sets the error state and clears the loading flag. -/
theorem planFetch_error_frame (s : PlanState) (g : Nat) (msg : String) :
    (resolveErr g msg s).plan = s.plan ∧
    (resolveErr s.current msg s).error = some msg ∧
    (resolveErr s.current msg s).loading = false := by
  refine ⟨?_, ?_, ?_⟩
  · rw [resolveErr]
    split <;> rfl
  · rw [resolveErr, if_pos rfl]
  · rw [resolveErr, if_pos rfl]

/-- State of the model-quality sidebar: the metrics slot and the
reliability slot. -/
structure MetricsState where
  metrics : Option ApiMetrics
  reliability : Option ApiReliability
deriving DecidableEq

/-- Mount-time retrieval of App.tsx lines 238-250: the two fetches are
joined with `Promise.all`; on success of both, `if (!cancelled) {
setMetrics(m); setReliability(r); }` commits both slots in the same
synchronous handler, with no code observing the state between the two
calls; if either fetch fails, `Promise.all` rejects and the empty catch
writes nothing.  `c` is the effect's cancelled flag, `o` the joined
outcome (`none` for any failure). -/
def mountResolve (c : Bool) (o : Option (ApiMetrics × ApiReliability))
    (s : MetricsState) : MetricsState :=
  match o with
  | none => s
  | some (m, r) => if c then s else { metrics := some m, reliability := some r }

/-- Refresh button of App.tsx line 461: its onClick first runs
`setMetrics(null); setReliability(null)` and only then starts the two
refetches. -/
def refreshClick (_s : MetricsState) : MetricsState :=
  { metrics := none, reliability := none }

/-- The refresh's metrics fetch resolves: `.then(setMetrics)` on success;
a failure has no handler, so nothing is written. -/
def refreshMetricsResolve (o : Option ApiMetrics) (s : MetricsState) : MetricsState :=
  match o with
  | none => s
  | some m => { s with metrics := some m }

/-- The refresh's reliability fetch resolves: `.then(setReliability)` on
success; a failure writes nothing. -/
def refreshReliabilityResolve (o : Option ApiReliability) (s : MetricsState) : MetricsState :=
  match o with
  | none => s
  | some r => { s with reliability := some r }

/-- C10: the mount-time retrieval updates the metrics slot and the
reliability slot together or not at all — every outcome either leaves the
whole state unchanged (failure of either fetch, or a cancelled effect) or
fills both slots from the joined response; no outcome updates exactly one
slot. -/
theorem metrics_mount_atomic (c : Bool) (s : MetricsState)
    (o : Option (ApiMetrics × ApiReliability)) :
    mountResolve c none s = s ∧
    (mountResolve c o s = s ∨
      ∃ m r, o = some (m, r) ∧ c = false ∧
        mountResolve c o s = { metrics := some m, reliability := some r }) := by
  refine ⟨rfl, ?_⟩
  match o with
  | none => exact Or.inl rfl
  | some (m, r) =>
    cases c with
    | true => exact Or.inl rfl
    | false => exact Or.inr ⟨m, r, rfl, rfl, rfl⟩

/-- C7 counterexample: with metrics and reliability both previously
displayed, clicking Refresh and having both refetches fail leaves both
slots empty — the refresh handler cleared the prior values before
fetching, so the failure does not leave them in place. -/
theorem refresh_failure_clears_counterexample :
    (refreshReliabilityResolve none (refreshMetricsResolve none
        (refreshClick { metrics := some { brier := some (1/10) },
                        reliability := some { calibration := [] } }))).metrics = none ∧
    (refreshReliabilityResolve none (refreshMetricsResolve none
        (refreshClick { metrics := some { brier := some (1/10) },
                        reliability := some { calibration := [] } }))).reliability = none ∧
    ({ metrics := some { brier := some (1/10) },
       reliability := some { calibration := [] } } : MetricsState).metrics ≠ none :=
  ⟨rfl, rfl, by simp⟩

/-- C7 amended: a failed fetch by itself never writes either slot — the
mount-time retrieval leaves both in their prior state on failure, and a
failed refresh fetch writes nothing — but the manual refresh clears both
slots to empty at click time, before its fetches run, so prior values do
not survive a failed manual refresh. -/
theorem metrics_failure_frame (s : MetricsState) :
    mountResolve false none s = s ∧
    mountResolve true none s = s ∧
    refreshMetricsResolve none s = s ∧
    refreshReliabilityResolve none s = s ∧
    refreshClick s = { metrics := none, reliability := none } :=
  ⟨rfl, rfl, rfl, rfl, rfl⟩

/-- Fixed header row of exportCsv (App.tsx line 264). -/
def csvHeader : List String :=
  ["date", "preset", "symbol", "name", "market", "entry", "stop", "take",
   "confidence", "expected_%", "size_P"]

/-- String form of a preset, as interpolated into a CSV row. -/
def presetToString : Preset → String
  | Preset.Botswana => "Botswana"
  | Preset.Global => "Global"

/-- Decimal rendering with a fixed number of fraction digits, modelling
`Number.prototype.toFixed` (round to nearest, ties upward in magnitude).
The CSV claims depend only on row counts and order, never on the digits. -/
def ratToFixed (x : ℚ) (digits : Nat) : String :=
  let sign := if x < 0 then "-" else ""
  let scaled : Nat := (⌊|x| * (10 : ℚ) ^ digits + 1/2⌋).toNat
  let ip := scaled / 10 ^ digits
  let fp := scaled % 10 ^ digits
  if digits = 0 then sign ++ toString ip
  else
    let fs := toString fp
    sign ++ toString ip ++ "." ++ String.mk (List.replicate (digits - fs.length) '0') ++ fs

/-- Abstract JavaScript number-to-string conversion, used where a raw
number is placed in the row array and comma-joined; the claims depend only
on row structure, not on the numeral text. -/
def jsNumString (x : ℚ) : String := toString x

/-- One CSV data row of exportCsv (App.tsx lines 265-268), columns in
source order: date, preset, symbol, name, market, entry, stop, take,
confidence `(p*100).toFixed(1)+'%'`, expected `(ev*100).toFixed(2)`,
size. -/
def ideaRow (asof : String) (ps : Preset) (i : ApiPlanItem) : List String :=
  [asof, presetToString ps, i.symbol, i.name, i.market,
   jsNumString i.entry, jsNumString i.stop, jsNumString i.take,
   ratToFixed (i.p * 100) 1 ++ "%", ratToFixed (i.ev * 100) 2,
   jsNumString i.size_bwp]

/-- The `rows` array of exportCsv: the header first, then one row per idea
in idea order. -/
def csvRows (asof : String) (ps : Preset) (ideas : List ApiPlanItem) : List (List String) :=
  csvHeader :: ideas.map (ideaRow asof ps)

/-- The built text: `rows.map(r => r.join(',')).join('\n')`. -/
def csvText (asof : String) (ps : Preset) (ideas : List ApiPlanItem) : String :=
  String.intercalate "\n" ((csvRows asof ps ideas).map (String.intercalate ","))

/-- The component's idea list: `plan?.ideas ?? []` (App.tsx line 251). -/
def planIdeas (plan : Option ApiPlan) : List ApiPlanItem :=
  (plan.map ApiPlan.ideas).getD []

/-- The as-of date used in the rows and the filename:
`plan?.asof ?? new Date().toISOString().slice(0,10)`. -/
def planAsof (plan : Option ApiPlan) (today : String) : String :=
  (plan.map ApiPlan.asof).getD today

/-- Observable result of exportCsv (App.tsx lines 262-275): the CSV text
put in the blob, the download filename, and whether a download was
triggered.  `a.click()` runs unconditionally — the source has no
emptiness check — so `downloaded` is always true. -/
structure CsvExport where
  csv : String
  filename : String
  downloaded : Bool
deriving DecidableEq

/-- exportCsv from App.tsx lines 262-275, as a function of the component
state it closes over (plan, today's date string, preset). -/
def exportCsv (plan : Option ApiPlan) (today : String) (ps : Preset) : CsvExport :=
  { csv := csvText (planAsof plan today) ps (planIdeas plan)
    filename := "anjaylytics_plan_" ++ planAsof plan today ++ ".csv"
    downloaded := true }

/-- C3 counterexample: invoked with no plan (idea sequence empty), the
exporter is not a no-op — it still builds the header-only CSV text and
triggers the download. -/
theorem exportCsv_empty_not_noop :
    (exportCsv none "2026-10-11" Preset.Global).downloaded = true ∧
    (exportCsv none "2026-10-11" Preset.Global).csv = String.intercalate "," csvHeader ∧
    (exportCsv none "2026-10-11" Preset.Global).csv ≠ "" :=
  ⟨rfl, rfl, by decide⟩

/-- C3 amended: on an empty idea sequence the exporter still builds the
CSV text consisting of exactly the comma-joined header row and still
triggers the file download; the operation is not guarded by an emptiness
check. -/
theorem exportCsv_empty_header_only (plan : Option ApiPlan) (today : String) (ps : Preset)
    (h : planIdeas plan = []) :
    (exportCsv plan today ps).csv = String.intercalate "," csvHeader ∧
    (exportCsv plan today ps).downloaded = true := by
  refine ⟨?_, rfl⟩
  show csvText (planAsof plan today) ps (planIdeas plan) = _
  rw [h, csvText, csvRows]
  simp [String.intercalate, String.intercalate.go]

/-- Witness for `exportCsv_empty_header_only` with no plan loaded. -/
theorem exportCsv_empty_header_only_witness :
    planIdeas none = [] ∧
    ((exportCsv none "2026-10-11" Preset.Global).csv = String.intercalate "," csvHeader ∧
      (exportCsv none "2026-10-11" Preset.Global).downloaded = true) :=
  ⟨rfl, exportCsv_empty_header_only none "2026-10-11" Preset.Global rfl⟩

/-- C8: for every idea list the built rows are the fixed header (the same
constant on every call) followed by one row per idea in idea order —
row count = idea count + 1 — and the exported text is those rows
comma-joined and newline-separated; exportCsv's text is exactly this for
the component's idea list. -/
theorem exportCsv_row_structure (asof : String) (ps : Preset) (ideas : List ApiPlanItem) :
    (csvRows asof ps ideas).length = ideas.length + 1 ∧
    (csvRows asof ps ideas).head? = some csvHeader ∧
    (∀ k : Nat, (csvRows asof ps ideas).get? (k + 1) = (ideas.get? k).map (ideaRow asof ps)) ∧
    csvText asof ps ideas =
      String.intercalate "\n" ((csvRows asof ps ideas).map (String.intercalate ",")) ∧
    (∀ (plan : Option ApiPlan) (today : String),
      (exportCsv plan today ps).csv = csvText (planAsof plan today) ps (planIdeas plan)) := by
  refine ⟨by simp [csvRows], rfl, fun k => ?_, rfl, fun _ _ => rfl⟩
  show (ideas.map (ideaRow asof ps)).get? k = _
  simp [List.get?_eq_getElem?]

/-- Math.max(0, Math.min(100, v)) from App.tsx lines 285-286. -/
def clamp100 (v : ℚ) : ℚ := max 0 (min 100 v)

/-- Display data of CalibrationBars (App.tsx lines 276-293): with no bins
the component renders the "no calibration data" placeholder, i.e. an empty
display set; otherwise it renders `bins.slice(1, bins.length - 1)`, one
pair of clamped bar widths (predicted, actual) per remaining bin, in bin
order. -/
def calibrationBars (bins : List CalibrationBin) : List (ℚ × ℚ) :=
  if bins.length = 0 then []
  else ((bins.take (bins.length - 1)).drop 1).map
    (fun b => (clamp100 (b.p_avg * 100), clamp100 (b.y_rate * 100)))

/-- C9: the calibration reducer drops the first and last bin and maps each
remaining bin to its clamped percentage pair; the display count is the bin
count minus two, so 2 bins display nothing (and so does any shorter
input) and 4 bins display exactly 2 entries. -/
theorem calibration_bars_spec (bins : List CalibrationBin) (b1 b2 b3 b4 : CalibrationBin) :
    calibrationBars bins = ((bins.drop 1).dropLast).map
      (fun b => (clamp100 (b.p_avg * 100), clamp100 (b.y_rate * 100))) ∧
    (calibrationBars bins).length = bins.length - 2 ∧
    calibrationBars [] = [] ∧
    calibrationBars [b1, b2] = [] ∧
    (calibrationBars [b1, b2, b3, b4]).length = 2 := by
  have key : calibrationBars bins = ((bins.drop 1).dropLast).map
      (fun b => (clamp100 (b.p_avg * 100), clamp100 (b.y_rate * 100))) := by
    rw [calibrationBars]
    split
    · next hlen =>
      rw [List.length_eq_zero.1 hlen]
      rfl
    · rw [List.drop_take, List.dropLast_eq_take, List.length_drop]
  refine ⟨key, ?_, rfl, by simp [calibrationBars], by simp [calibrationBars]⟩
  rw [key]
  simp [Nat.sub_sub]

end Anjaylytics
